import Mathlib

/-!
# Verification of the SENTINEL-AEGIS assessment aggregation engine

Shallow embedding of the aggregation engine of `SENTINEL-AEGIS.py`:
the risk-score aggregator (`_calculate_risk_score`), the risk classifier
(`_risk_level`), the recommendation builder (`_generate_recommendations`),
the report assembly (`_generate_report`), and the coordinator loop
(`run_assessment`) together with the restricted single-module path of `main`.

Python dict values are modelled as structures whose optional fields stand for
optional dict keys; the aggregation engine only ever reads the keys `status`,
`risk_score`, `vulnerabilities` (with the `name`, `severity`, `remediation`
keys of each finding) and writes `message` on module failure, so those are the
modelled fields.  Python numbers are modelled as exact rationals `ℚ`.
A results mapping (`results` in the Python) is a function from module name to
an optional module result.  A module invocation either returns a result or
raises, modelled as `Except String ModuleResult`.
-/

namespace SentinelAegis

/-- One vulnerability finding, as read by the recommendation builder:
`vuln.get("name")`, `vuln.get("severity")`, `vuln.get("remediation")`. -/
structure Vulnerability where
  name : Option String
  severity : Option String
  remediation : Option String
  deriving DecidableEq, Repr

/-- A module result dict, restricted to the keys the aggregation engine reads
or writes.  `status` is always present in the source (either `"completed"`
from a module or `"error"` from the coordinator); the other keys are
optional. -/
structure ModuleResult where
  status : String
  risk_score : Option ℚ
  vulnerabilities : Option (List Vulnerability)
  message : Option String
  deriving DecidableEq, Repr

/-- The results mapping assembled by the coordinator: module name to the
module's result entry, `none` when the module has no entry. -/
def Results : Type := String → Option ModuleResult

/-- One recommendation record as built at lines 134-139 of the source. -/
structure Recommendation where
  priority : String
  module : String
  finding : String
  action : String
  deriving DecidableEq, Repr

/-- The contribution one designated module appends to the `scores` list:
`if name in results and "risk_score" in results[name]:
   scores.append(results[name]["risk_score"] * weight)`. -/
def contribution (results : Results) (name : String) (weight : ℚ) : List ℚ :=
  match results name with
  | some r =>
    match r.risk_score with
    | some s => [s * weight]
    | none => []
  | none => []

/-- `_calculate_risk_score` (lines 96-113): build the `scores` list from the
four designated modules' `risk_score` entries, then
`return sum(scores) if scores else 50`. -/
def calculate_risk_score (results : Results) : ℚ :=
  let scores : List ℚ :=
    contribution results "vulnerability_scanner" (3 / 10)
      ++ contribution results "policy_analyzer" (2 / 10)
      ++ contribution results "attack_simulator" (1 / 4)
      ++ contribution results "compliance_auditor" (1 / 4)
  if scores.isEmpty then 50 else scores.sum

/-- `_risk_level` (lines 115-123). -/
def risk_level (score : ℚ) : String :=
  if score < 20 then "LOW"
  else if score < 50 then "MEDIUM"
  else if score < 80 then "HIGH"
  else "CRITICAL"

/-- The severity test at line 133: `vuln.get("severity") in ["critical", "high"]`. -/
def severityQualifies (v : Vulnerability) : Bool :=
  v.severity == some "critical" || v.severity == some "high"

/-- The recommendation record appended at lines 134-139 for one qualifying
finding. -/
def mkRecommendation (v : Vulnerability) : Recommendation :=
  { priority := "high"
    module := "vulnerability_scanner"
    finding := v.name.getD "Unknown vulnerability"
    action := v.remediation.getD "Patch system immediately" }

/-- The `recommendations` list in generation order (lines 127-139): scan the
vulnerability scanner's finding list (`.get("vulnerabilities", [])`) and
append one record per `critical`/`high` finding. -/
def recsFromResults (results : Results) : List Recommendation :=
  match results "vulnerability_scanner" with
  | some r => ((r.vulnerabilities.getD []).filter severityQualifies).map mkRecommendation
  | none => []

/-- The priority key of the final sort (line 144):
`{"high": 0, "medium": 1, "low": 2}.get(x["priority"], 3)`. -/
def priorityRank (p : String) : Nat :=
  if p = "high" then 0
  else if p = "medium" then 1
  else if p = "low" then 2
  else 3

/-- The sort order on recommendations used at line 144. -/
def recPriorityLE (a b : Recommendation) : Prop :=
  priorityRank a.priority ≤ priorityRank b.priority

instance : DecidableRel recPriorityLE :=
  fun a b => inferInstanceAs (Decidable (priorityRank a.priority ≤ priorityRank b.priority))

instance : IsTotal Recommendation recPriorityLE :=
  ⟨fun a b => Nat.le_total (priorityRank a.priority) (priorityRank b.priority)⟩

instance : IsTrans Recommendation recPriorityLE :=
  ⟨fun _ _ _ hab hbc => Nat.le_trans hab hbc⟩

/-- `_generate_recommendations` (lines 125-144): build the list in generation
order, then stable-sort it by priority rank.  Python `sorted` is a stable sort
by the key; `List.insertionSort` with the non-strict key order is a stable
sort by the same key, so it computes the same list. -/
def generate_recommendations (results : Results) : List Recommendation :=
  List.insertionSort recPriorityLE (recsFromResults results)

/-- The final report record of `_generate_report` (lines 81-94). -/
structure AssessmentReport where
  organization : String
  timestamp : String
  risk_score : ℚ
  risk_level : String
  module_results : Results
  recommendations : List Recommendation

/-- `_generate_report` (lines 81-94): compute the aggregate score, classify
it, and assemble the report record around the unchanged results mapping. -/
def generate_report (org ts : String) (results : Results) : AssessmentReport :=
  let rs := calculate_risk_score results
  { organization := org
    timestamp := ts
    risk_score := rs
    risk_level := risk_level rs
    module_results := results
    recommendations := generate_recommendations results }

/-- The outcome of one module invocation: a result dict, or a raised
exception carried as its message string. -/
abbrev ModuleOutcome : Type := Except String ModuleResult

/-- The error entry the coordinator records at line 75:
`{"status": "error", "message": str(e)}`. -/
def errorResult (msg : String) : ModuleResult :=
  { status := "error", risk_score := none, vulnerabilities := none, message := some msg }

/-- The entry `run_assessment` records for one module (lines 71-75): the
returned dict on success, the error entry on a raised exception. -/
def outcomeResult (o : ModuleOutcome) : ModuleResult :=
  match o with
  | Except.ok r => r
  | Except.error e => errorResult e

/-- The results mapping assembled by the loop of `run_assessment`
(lines 67-75): one entry per attempted module, a later entry for the same
name overwriting an earlier one, as in a Python dict. -/
def runResults : List (String × ModuleOutcome) → Results
  | [] => fun _ => none
  | (n, o) :: rest => fun k =>
    match runResults rest k with
    | some r => some r
    | none => if k = n then some (outcomeResult o) else none

/-- `run_assessment` (lines 64-79) up to its report: run every module,
catching each failure into an error entry, then generate the report.  This is
a total function: the full-assessment run always completes. -/
def run_assessment (org ts : String) (mods : List (String × ModuleOutcome)) :
    AssessmentReport :=
  generate_report org ts (runResults mods)

/-- The restricted single-module path of `main` (lines 262-266):
`result = {module_name: sentinel.modules[module_name].run()}` followed by
`report = sentinel._generate_report(result)`.  The `run()` call is not inside
any `try`, so a raised failure propagates out of `main`. -/
def run_single_module (org ts name : String) (o : ModuleOutcome) :
    Except String AssessmentReport :=
  o.map fun r => generate_report org ts (fun k => if k = name then some r else none)

/-! ## The stub modules' fixed return values (lines 160-247), projected to the
keys the aggregation engine reads. -/

/-- `VulnerabilityScanner.run` (lines 160-174). -/
def vulnerabilityScannerRun : ModuleResult :=
  { status := "completed"
    risk_score := some 35
    vulnerabilities := some
      [ { name := some "SQL Injection Vulnerability", severity := some "high",
          remediation := some "Update database middleware" },
        { name := some "Outdated SSL Certificate", severity := some "medium",
          remediation := some "Renew SSL certificates" } ]
    message := none }

/-- `PolicyAnalyzer.run` (lines 177-187). -/
def policyAnalyzerRun : ModuleResult :=
  { status := "completed", risk_score := some 45, vulnerabilities := none, message := none }

/-- `AttackSimulator.run` (lines 190-200). -/
def attackSimulatorRun : ModuleResult :=
  { status := "completed", risk_score := some 60, vulnerabilities := none, message := none }

/-- `ComplianceAuditor.run` (lines 203-213). -/
def complianceAuditorRun : ModuleResult :=
  { status := "completed", risk_score := some 30, vulnerabilities := none, message := none }

/-- `ThreatMonitor.run` (lines 216-225): no `risk_score` key. -/
def threatMonitorRun : ModuleResult :=
  { status := "completed", risk_score := none, vulnerabilities := none, message := none }

/-- `IncidentResponder.run` (lines 228-236): no `risk_score` key. -/
def incidentResponderRun : ModuleResult :=
  { status := "completed", risk_score := none, vulnerabilities := none, message := none }

/-- `TrainingPlatform.run` (lines 239-247): no `risk_score` key. -/
def trainingPlatformRun : ModuleResult :=
  { status := "completed", risk_score := none, vulnerabilities := none, message := none }

/-- The module registry in registration order (lines 14-22), with every stub
succeeding. -/
def registeredModules : List (String × ModuleOutcome) :=
  [ ("vulnerability_scanner", Except.ok vulnerabilityScannerRun),
    ("policy_analyzer", Except.ok policyAnalyzerRun),
    ("attack_simulator", Except.ok attackSimulatorRun),
    ("compliance_auditor", Except.ok complianceAuditorRun),
    ("threat_monitor", Except.ok threatMonitorRun),
    ("incident_response", Except.ok incidentResponderRun),
    ("training_platform", Except.ok trainingPlatformRun) ]

/-- The results mapping of a full assessment run over the stub modules. -/
def fullResults : Results := runResults registeredModules

/-- The four designated modules of the weight table (lines 101-111). -/
def designatedModules : List String :=
  ["vulnerability_scanner", "policy_analyzer", "attack_simulator", "compliance_auditor"]

/-- Overwrite one module's entry in a results mapping. -/
def setModule (results : Results) (name : String) (r : ModuleResult) : Results :=
  fun k => if k = name then some r else results k

/-- The restricted-mode results mapping holding only the threat monitor's
stub result. -/
def threatMonitorOnlyResults : Results := fun k =>
  if k = "threat_monitor" then some threatMonitorRun else none

/-- `fullResults` with the (non-designated) threat monitor's entry replaced
by one that carries a risk score. -/
def scoredThreatMonitorResults : Results := fun k =>
  if k = "threat_monitor" then
    some { status := "completed", risk_score := some 97, vulnerabilities := none,
           message := none }
  else fullResults k

/-- A vulnerability scanner entry with one finding of severity "high" that
carries neither a name nor a remediation. -/
def anonymousFindingEntry : ModuleResult :=
  { status := "completed"
    risk_score := none
    vulnerabilities := some [{ name := none, severity := some "high", remediation := none }]
    message := none }

/-- A results mapping whose only entry is `anonymousFindingEntry`. -/
def anonymousFindingResults : Results := fun k =>
  if k = "vulnerability_scanner" then some anonymousFindingEntry else none

/-- A two-module run in which the threat monitor raises. -/
def failingRegisteredModules : List (String × ModuleOutcome) :=
  [ ("vulnerability_scanner", Except.ok vulnerabilityScannerRun),
    ("threat_monitor", Except.error "connection refused") ]

/-! ## Spec-side definitions, for the refinement claims about the aggregator.
These follow the spec's words, to be compared with `calculate_risk_score`,
which is translated from the source. -/

/-- Spec-side, claim C1 as stated: the optional weighted contribution of one
designated module, counted only when its entry is present with
status = completed and a risk score; an entry with any other status
contributes nothing even if it carries a risk score. -/
def claimC1Contribution (results : Results) (name : String) (w : ℚ) : Option ℚ :=
  match results name with
  | some r => if r.status = "completed" then r.risk_score.map (fun s => s * w) else none
  | none => none

/-- Spec-side, claim C1 as stated: accumulate the claimed contributions of
the four designated modules, defaulting to 50 when none contributed. -/
def claimC1RiskScore (results : Results) : ℚ :=
  let cs : List (Option ℚ) :=
    [ claimC1Contribution results "vulnerability_scanner" (3 / 10),
      claimC1Contribution results "policy_analyzer" (2 / 10),
      claimC1Contribution results "attack_simulator" (1 / 4),
      claimC1Contribution results "compliance_auditor" (1 / 4) ]
  if cs.all Option.isNone then 50 else (cs.map (fun c => c.getD 0)).sum

/-- Spec-side, claim C1 amended: the optional weighted contribution of one
designated module, counted whenever its entry is present with a risk score,
regardless of status. -/
def amendedContribution (results : Results) (name : String) (w : ℚ) : Option ℚ :=
  match results name with
  | some r => r.risk_score.map (fun s => s * w)
  | none => none

/-- Spec-side, claim C1 amended: accumulate the amended contributions of the
four designated modules, defaulting to 50 when none contributed. -/
def amendedRiskScore (results : Results) : ℚ :=
  let cs : List (Option ℚ) :=
    [ amendedContribution results "vulnerability_scanner" (3 / 10),
      amendedContribution results "policy_analyzer" (2 / 10),
      amendedContribution results "attack_simulator" (1 / 4),
      amendedContribution results "compliance_auditor" (1 / 4) ]
  if cs.all Option.isNone then 50 else (cs.map (fun c => c.getD 0)).sum

/-- A results mapping whose only entry is a vulnerability scanner entry with
status "error" that nevertheless carries a risk score. -/
def erroredScannerResults : Results := fun k =>
  if k = "vulnerability_scanner" then
    some { status := "error", risk_score := some 100, vulnerabilities := none,
           message := some "scan failed" }
  else none

/-! ## Helper lemmas about the aggregator -/

theorem contribution_eq_toList (results : Results) (name : String) (w : ℚ) :
    contribution results name w = (amendedContribution results name w).toList := by
  unfold contribution amendedContribution
  cases hres : results name with
  | none => rfl
  | some r =>
    cases hrs : r.risk_score with
    | none => simp [hrs]
    | some s => simp [hrs]

theorem optList_isEmpty (a b c d : Option ℚ) :
    (a.toList ++ b.toList ++ c.toList ++ d.toList).isEmpty
      = (a.isNone && (b.isNone && (c.isNone && d.isNone))) := by
  cases a <;> cases b <;> cases c <;> cases d <;> rfl

theorem optList_sum (a b c d : Option ℚ) :
    (a.toList ++ b.toList ++ c.toList ++ d.toList).sum
      = a.getD 0 + b.getD 0 + c.getD 0 + d.getD 0 := by
  cases a <;> cases b <;> cases c <;> cases d <;> simp <;> ring

theorem contribution_nil_of_no_score (results : Results) (name : String) (w : ℚ)
    (h : ((results name).bind ModuleResult.risk_score) = none) :
    contribution results name w = [] := by
  unfold contribution
  cases hres : results name with
  | none => rfl
  | some r =>
    rw [hres] at h
    simp only [Option.some_bind] at h
    simp [h]

theorem contribution_setModule_other (results : Results) (name m : String)
    (r : ModuleResult) (w : ℚ) (h : m ≠ name) :
    contribution (setModule results name r) m w = contribution results m w := by
  unfold contribution setModule
  rw [if_neg h]

theorem recsFromResults_all_high (results : Results) :
    ∀ x ∈ recsFromResults results, x.priority = "high" := by
  intro x hx
  unfold recsFromResults at hx
  cases hres : results "vulnerability_scanner" with
  | none => rw [hres] at hx; simp at hx
  | some r =>
    rw [hres] at hx
    simp only [List.mem_map] at hx
    obtain ⟨v, _, hv⟩ := hx
    rw [← hv]
    rfl

theorem sorted_of_all_high (l : List Recommendation)
    (h : ∀ x ∈ l, x.priority = "high") : List.Sorted recPriorityLE l := by
  induction l with
  | nil => exact List.sorted_nil
  | cons a t ih =>
    rw [List.sorted_cons]
    refine ⟨fun b hb => ?_, ih fun x hx => h x (List.mem_cons_of_mem a hx)⟩
    unfold recPriorityLE
    rw [h a (List.mem_cons_self a t), h b (List.mem_cons_of_mem a hb)]

theorem generate_recommendations_eq_recs (results : Results) :
    generate_recommendations results = recsFromResults results := by
  unfold generate_recommendations
  exact List.Sorted.insertionSort_eq (sorted_of_all_high _ (recsFromResults_all_high results))

theorem runResults_not_mem (mods : List (String × ModuleOutcome)) (name : String)
    (h : name ∉ mods.map Prod.fst) : runResults mods name = none := by
  induction mods with
  | nil => rfl
  | cons p rest ih =>
    obtain ⟨n, o⟩ := p
    simp only [List.map_cons, List.mem_cons] at h
    push_neg at h
    show (match runResults rest name with
      | some r => some r
      | none => if name = n then some (outcomeResult o) else none) = none
    rw [ih h.2, if_neg h.1]

theorem runResults_mem_error (mods : List (String × ModuleOutcome)) (name msg : String)
    (hnd : (mods.map Prod.fst).Nodup) (hmem : (name, Except.error msg) ∈ mods) :
    runResults mods name = some (errorResult msg) := by
  induction mods with
  | nil => simp at hmem
  | cons p rest ih =>
    obtain ⟨n, o⟩ := p
    simp only [List.map_cons, List.nodup_cons] at hnd
    rcases List.mem_cons.mp hmem with heq | hrest
    · cases heq
      show (match runResults rest name with
        | some r => some r
        | none => if name = name then some (outcomeResult (Except.error msg)) else none)
          = some (errorResult msg)
      rw [runResults_not_mem rest name hnd.1, if_pos rfl]
      rfl
    · show (match runResults rest name with
        | some r => some r
        | none => if name = n then some (outcomeResult o) else none)
          = some (errorResult msg)
      rw [ih hnd.2 hrest]

theorem runResults_isSome_of_mem (mods : List (String × ModuleOutcome))
    (p : String × ModuleOutcome) (hp : p ∈ mods) :
    (runResults mods p.1).isSome = true := by
  induction mods with
  | nil => simp at hp
  | cons q rest ih =>
    obtain ⟨n, o⟩ := q
    have hgoal : runResults ((n, o) :: rest) p.1
        = match runResults rest p.1 with
          | some r => some r
          | none => if p.1 = n then some (outcomeResult o) else none := rfl
    rw [hgoal]
    rcases List.mem_cons.mp hp with heq | hrest
    · cases hr : runResults rest p.1 with
      | some r => rfl
      | none =>
        subst heq
        rw [if_pos rfl]
        rfl
    · have hs := ih hrest
      cases hr : runResults rest p.1 with
      | some r => rfl
      | none => rw [hr] at hs; simp at hs

/-! ## Claims -/

/-- Claim C1, counterexample: a results mapping whose only entry is a
vulnerability scanner entry with status "error" carrying risk score 100.
The claim's accumulation rule (status must be "completed") would yield the
default 50, but `_calculate_risk_score` never reads `status` and accumulates
100 * 0.30 = 30, so the claim as stated is false on the code. -/
theorem c1_status_counterexample :
    claimC1RiskScore erroredScannerResults = 50 ∧
    calculate_risk_score erroredScannerResults = 30 ∧
    calculate_risk_score erroredScannerResults ≠ claimC1RiskScore erroredScannerResults := by
  have hspec : claimC1RiskScore erroredScannerResults = 50 := rfl
  have hcode : calculate_risk_score erroredScannerResults = 30 := by
    have e1 : contribution erroredScannerResults "vulnerability_scanner" (3 / 10)
        = [100 * (3 / 10)] := rfl
    have e2 : contribution erroredScannerResults "policy_analyzer" (2 / 10) = [] := rfl
    have e3 : contribution erroredScannerResults "attack_simulator" (1 / 4) = [] := rfl
    have e4 : contribution erroredScannerResults "compliance_auditor" (1 / 4) = [] := rfl
    unfold calculate_risk_score
    rw [e1, e2, e3, e4]
    norm_num
  exact ⟨hspec, hcode, by rw [hspec, hcode]; norm_num⟩

/-- Claim C1 (amended): for every results mapping, the aggregate risk score
accumulates riskScore * weight exactly for those designated modules
(vulnerability_scanner 0.30, policy_analyzer 0.20, attack_simulator 0.25,
compliance_auditor 0.25) whose entry is present with a riskScore, regardless
of the entry's status — an entry with status "error" that carries a riskScore
contributes like any other; when no designated module contributes, the
aggregate defaults to 50. -/
theorem c1_risk_accumulation (results : Results) :
    calculate_risk_score results = amendedRiskScore results := by
  unfold calculate_risk_score amendedRiskScore
  rw [contribution_eq_toList, contribution_eq_toList, contribution_eq_toList,
    contribution_eq_toList]
  generalize amendedContribution results "vulnerability_scanner" (3 / 10) = a
  generalize amendedContribution results "policy_analyzer" (2 / 10) = b
  generalize amendedContribution results "attack_simulator" (1 / 4) = c
  generalize amendedContribution results "compliance_auditor" (1 / 4) = d
  cases a <;> cases b <;> cases c <;> cases d <;> simp <;> ring

/-- Claim C3: the risk classifier returns LOW iff s < 20, MEDIUM iff
20 ≤ s < 50, HIGH iff 50 ≤ s < 80, CRITICAL iff s ≥ 80; a score of exactly
20 is MEDIUM, exactly 50 is HIGH, exactly 80 is CRITICAL. -/
theorem c3_risk_level_bands (s : ℚ) :
    (risk_level s = "LOW" ↔ s < 20) ∧
    (risk_level s = "MEDIUM" ↔ 20 ≤ s ∧ s < 50) ∧
    (risk_level s = "HIGH" ↔ 50 ≤ s ∧ s < 80) ∧
    (risk_level s = "CRITICAL" ↔ 80 ≤ s) ∧
    risk_level 20 = "MEDIUM" ∧ risk_level 50 = "HIGH" ∧ risk_level 80 = "CRITICAL" := by
  refine ⟨?_, ?_, ?_, ?_, by norm_num [risk_level], by norm_num [risk_level],
    by norm_num [risk_level]⟩ <;>
  · unfold risk_level
    split_ifs with h1 h2 h3 <;> simp_all <;>
      first
        | linarith
        | (constructor <;> linarith)
        | (intro h; linarith)
        | (intro h; exfalso; linarith)

/-- Claim C9: with the stub modules' full-run results (vulnerability scanner
35, policy analyzer 45, attack simulator 60, compliance auditor 30) the
aggregate risk score is exactly 42 and the risk level is MEDIUM. -/
theorem c9_full_run_example :
    calculate_risk_score fullResults = 42 ∧
    risk_level (calculate_risk_score fullResults) = "MEDIUM" := by
  have hcalc : calculate_risk_score fullResults = 42 := by
    have e1 : contribution fullResults "vulnerability_scanner" (3 / 10)
        = [35 * (3 / 10)] := rfl
    have e2 : contribution fullResults "policy_analyzer" (2 / 10) = [45 * (2 / 10)] := rfl
    have e3 : contribution fullResults "attack_simulator" (1 / 4) = [60 * (1 / 4)] := rfl
    have e4 : contribution fullResults "compliance_auditor" (1 / 4) = [30 * (1 / 4)] := rfl
    unfold calculate_risk_score
    rw [e1, e2, e3, e4]
    norm_num
  exact ⟨hcalc, by rw [hcalc]; norm_num [risk_level]⟩

/-- Claim C10: report generation leaves the module results unchanged — the
produced report's module_results field is exactly the input results mapping
(the aggregator and the recommendation builder are pure functions of the
mapping and modify nothing). -/
theorem c10_report_preserves_results (org ts : String) (results : Results) :
    (generate_report org ts results).module_results = results := rfl

/-- Claim C2, counterexample: in restricted single-module mode a module
failure is not recovered.  `main` calls `run()` outside any try block, so the
failure propagates out and no report is produced, refuting "the failure is
never propagated ... including in restricted single-module mode". -/
theorem c2_restricted_mode_counterexample :
    run_single_module "Default Organization" "2026-10-12T00:00:00" "threat_monitor"
        (Except.error "simulated module failure")
      = Except.error "simulated module failure" := rfl

/-- Claim C2 (amended): in the full-assessment run, any exception raised by a
module is recovered by the coordinator and recorded as
`{status: "error", message: <failure text>}` in that module's slot, the run
still completes with an entry for every attempted module, and a well-formed
report is still produced; in restricted single-module mode, however, the
module is invoked outside the failure boundary, so a failure there
propagates. -/
theorem c2_full_mode_isolation (org ts : String)
    (mods : List (String × ModuleOutcome)) (name msg : String)
    (hnd : (mods.map Prod.fst).Nodup) (hmem : (name, Except.error msg) ∈ mods) :
    runResults mods name = some (errorResult msg) ∧
    (run_assessment org ts mods).module_results = runResults mods ∧
    ∀ p ∈ mods, (runResults mods p.1).isSome = true :=
  ⟨runResults_mem_error mods name msg hnd hmem, rfl,
    fun p hp => runResults_isSome_of_mem mods p hp⟩

/-- Witness for C2: a two-module run in which the threat monitor raises
"connection refused" still completes, records the error entry in the threat
monitor's slot, and produces a report over all attempted modules. -/
theorem c2_full_mode_isolation_witness :
    runResults failingRegisteredModules "threat_monitor"
        = some (errorResult "connection refused") ∧
    (run_assessment "Default Organization" "2026-10-12T00:00:00"
        failingRegisteredModules).module_results = runResults failingRegisteredModules ∧
    ∀ p ∈ failingRegisteredModules,
      (runResults failingRegisteredModules p.1).isSome = true :=
  c2_full_mode_isolation "Default Organization" "2026-10-12T00:00:00"
    failingRegisteredModules "threat_monitor" "connection refused"
    (by decide) (List.mem_cons_of_mem _ (List.mem_cons_self _ _))

/-- Claim C4, counterexample: with every designated module absent (only the
threat monitor present, without a risk score) the aggregate is indeed 50, but
the classifier maps 50 to HIGH (50 < 50 is false), not to MEDIUM as the claim
states. -/
theorem c4_medium_counterexample :
    calculate_risk_score threatMonitorOnlyResults = 50 ∧
    risk_level (calculate_risk_score threatMonitorOnlyResults) = "HIGH" ∧
    risk_level (calculate_risk_score threatMonitorOnlyResults) ≠ "MEDIUM" := by
  have hcalc : calculate_risk_score threatMonitorOnlyResults = 50 := rfl
  have hlevel : risk_level (50 : ℚ) = "HIGH" := by norm_num [risk_level]
  exact ⟨hcalc, by rw [hcalc, hlevel], by rw [hcalc, hlevel]; decide⟩

/-- Claim C4 (amended): whenever each of the four designated modules is
absent or lacks a riskScore entry, the aggregate risk score is exactly 50;
in particular restricted mode on the non-designated threat monitor yields
aggregate 50 — whose derived risk level is HIGH, not MEDIUM, since the
classifier's HIGH band starts at 50. -/
theorem c4_default_fifty (results : Results)
    (h : ∀ n ∈ designatedModules, ((results n).bind ModuleResult.risk_score) = none) :
    calculate_risk_score results = 50 ∧
    risk_level (calculate_risk_score results) = "HIGH" := by
  have hcalc : calculate_risk_score results = 50 := by
    unfold calculate_risk_score
    rw [contribution_nil_of_no_score results "vulnerability_scanner" _
        (h _ (by decide)),
      contribution_nil_of_no_score results "policy_analyzer" _ (h _ (by decide)),
      contribution_nil_of_no_score results "attack_simulator" _ (h _ (by decide)),
      contribution_nil_of_no_score results "compliance_auditor" _ (h _ (by decide))]
    rfl
  exact ⟨hcalc, by rw [hcalc]; norm_num [risk_level]⟩

/-- Witness for C4: the restricted-mode results mapping holding only the
threat monitor's stub result has aggregate 50 and risk level HIGH. -/
theorem c4_default_fifty_witness :
    calculate_risk_score threatMonitorOnlyResults = 50 ∧
    risk_level (calculate_risk_score threatMonitorOnlyResults) = "HIGH" :=
  c4_default_fifty threatMonitorOnlyResults (by decide)

/-- Claim C5: the recommendation list returned by the builder is sorted by
priority rank (high = 0, medium = 1, low = 2, anything else 3), and within
each rank the relative order equals generation order — the order the findings
were scanned; in particular no medium-priority recommendation ever precedes a
high-priority one. -/
theorem c5_recommendations_sorted_stable (results : Results) :
    List.Sorted recPriorityLE (generate_recommendations results) ∧
    ∀ k : Nat,
      (generate_recommendations results).filter
          (fun x => priorityRank x.priority == k)
        = (recsFromResults results).filter (fun x => priorityRank x.priority == k) := by
  refine ⟨List.sorted_insertionSort recPriorityLE (recsFromResults results), fun k => ?_⟩
  rw [generate_recommendations_eq_recs]

/-- Claim C6: aggregation is linear in the vulnerability scanner's score:
two results mappings identical except for the vulnerability scanner's
riskScore (present in both) have aggregates differing by exactly 0.30 times
the score difference. -/
theorem c6_linearity (results : Results) (r : ModuleResult) (s₁ s₂ : ℚ) :
    calculate_risk_score
        (setModule results "vulnerability_scanner" { r with risk_score := some s₁ })
      - calculate_risk_score
        (setModule results "vulnerability_scanner" { r with risk_score := some s₂ })
      = (3 / 10) * (s₁ - s₂) := by
  have hpa : ("policy_analyzer" : String) ≠ "vulnerability_scanner" := by decide
  have has : ("attack_simulator" : String) ≠ "vulnerability_scanner" := by decide
  have hca : ("compliance_auditor" : String) ≠ "vulnerability_scanner" := by decide
  have hself : ∀ s : ℚ,
      contribution
          (setModule results "vulnerability_scanner" { r with risk_score := some s })
          "vulnerability_scanner" (3 / 10)
        = [s * (3 / 10)] := fun s => rfl
  unfold calculate_risk_score
  rw [hself s₁, hself s₂,
    contribution_setModule_other results "vulnerability_scanner" "policy_analyzer" _ _ hpa,
    contribution_setModule_other results "vulnerability_scanner" "policy_analyzer" _ _ hpa,
    contribution_setModule_other results "vulnerability_scanner" "attack_simulator" _ _ has,
    contribution_setModule_other results "vulnerability_scanner" "attack_simulator" _ _ has,
    contribution_setModule_other results "vulnerability_scanner" "compliance_auditor" _ _ hca,
    contribution_setModule_other results "vulnerability_scanner" "compliance_auditor" _ _ hca]
  simp only [List.cons_append, List.nil_append, List.isEmpty_cons, Bool.false_eq_true,
    if_false, List.sum_cons]
  ring

/-- Claim C7: two results mappings that agree on the four designated modules'
entries have identical aggregate risk scores, whatever the other modules'
entries — including any riskScore those other modules carry. -/
theorem c7_noninterference (results₁ results₂ : Results)
    (h : ∀ n ∈ designatedModules, results₁ n = results₂ n) :
    calculate_risk_score results₁ = calculate_risk_score results₂ := by
  have e1 := h "vulnerability_scanner" (by decide)
  have e2 := h "policy_analyzer" (by decide)
  have e3 := h "attack_simulator" (by decide)
  have e4 := h "compliance_auditor" (by decide)
  unfold calculate_risk_score contribution
  rw [e1, e2, e3, e4]

/-- Witness for C7: giving the non-designated threat monitor a risk score of
97 leaves the aggregate of the full stub run unchanged. -/
theorem c7_noninterference_witness :
    calculate_risk_score scoredThreatMonitorResults = calculate_risk_score fullResults :=
  c7_noninterference scoredThreatMonitorResults fullResults (by decide)

/-- Claim C8: for every finding of the vulnerability scanner's list whose
severity is critical or high, the builder emits exactly one recommendation
with priority high, source module vulnerability_scanner, finding = the
finding's name or "Unknown vulnerability" when absent, and action = the
finding's remediation or "Patch system immediately" when absent; findings of
any other severity emit none. -/
theorem c8_vuln_findings_recommendations (results : Results) (r : ModuleResult)
    (h : results "vulnerability_scanner" = some r) :
    generate_recommendations results
      = ((r.vulnerabilities.getD []).filter
            (fun v => v.severity == some "critical" || v.severity == some "high")).map
          (fun v =>
            { priority := "high"
              module := "vulnerability_scanner"
              finding := v.name.getD "Unknown vulnerability"
              action := v.remediation.getD "Patch system immediately" }) := by
  rw [generate_recommendations_eq_recs]
  unfold recsFromResults
  rw [h]
  rfl

/-- Witness for C8: a single high-severity finding with no name and no
remediation yields exactly the fallback recommendation of the spec's
end-to-end example. -/
theorem c8_vuln_findings_recommendations_witness :
    generate_recommendations anonymousFindingResults
      = [{ priority := "high", module := "vulnerability_scanner",
           finding := "Unknown vulnerability", action := "Patch system immediately" }] :=
  (c8_vuln_findings_recommendations anonymousFindingResults anonymousFindingEntry rfl).trans
    rfl

end SentinelAegis
